import Mathlib

/-!
Shallow embedding of the AI-Research-Agent pipeline (src/agent.py and
src/ai_research_agent/app.py).

External collaborators (Tavily search, HTTP fetch, pypdf, trafilatura,
Gemini, SQLAlchemy commit) are modelled as oracle fields of `Env`; each
oracle returns `Except PyErr` to model a Python call that may raise.
The pipeline functions themselves are translated directly from the two
Python files.  `Agent.*` embeds src/agent.py; `App.*` embeds
src/ai_research_agent/app.py; functions whose bodies are identical in
both files (search_online, extract_content_from_url) are shared.
-/

namespace ResearchAgent

/-- A Python exception, reduced to the message string that the code
interpolates into its f-strings. -/
abbrev PyErr := String

/-- One element of `response["results"]` from the Tavily search call;
the code reads only the `"url"` field, all others are ignored. -/
structure SearchItem where
  url : String
deriving DecidableEq

/-- The observable parts of a `requests.get` response used by
`extract_content_from_url`: `statusOk` is whether `raise_for_status()`
passes, `contentType` is `response.headers.get('Content-Type', '')`,
`content` is the byte body `response.content`, `text` is `response.text`. -/
structure HttpResponse where
  statusOk : Bool
  contentType : String
  content : List Nat
  text : String
deriving DecidableEq

/-- The persisted `Report` row: `(query, report_content, sources, timestamp)`.
`sources` is the comma-separated join of the URL list; `timestamp` models
the `default=datetime.utcnow` column default applied at insert time. -/
structure Report where
  query : String
  report_content : String
  sources : String
  timestamp : Nat
deriving DecidableEq

/-- The external world: one oracle per third-party call site.
`tavilySearch` is `tavily_client.search` (already projected to the
`"results"` list); `httpGet` is `requests.get`; `pdfPages` is
`pypdf.PdfReader(bytes)` followed by `page.extract_text()` on every page
in page order (an error if construction or any page extraction raises);
`trafilaturaExtract` is `trafilatura.extract` (which may return `None`);
`geminiGenerate` is `gemini_model.generate_content(prompt).text`;
`commitErr` says whether `db.add` and `db.commit` raise for a given row;
`now` is the insert-time timestamp. -/
structure Env where
  tavilySearch : String → Nat → Except PyErr (List SearchItem)
  httpGet : String → Except PyErr HttpResponse
  pdfPages : List Nat → Except PyErr (List String)
  trafilaturaExtract : String → Except PyErr (Option String)
  geminiGenerate : String → Except PyErr String
  commitErr : Report → Option PyErr
  now : Nat

/-- Embeds `search_online` (identical in both files): on success return
the `url` of every result object, on any exception return `[]`.
The Python default argument `max_results=3` becomes a Lean default. -/
def search_online (env : Env) (query : String) (max_results : Nat := 3) :
    List String :=
  match env.tavilySearch query max_results with
  | .ok results => results.map (fun obj => obj.url)
  | .error _ => []

/-- Python's substring membership test `needle in hay` on character
lists: some position of `hay` starts with `needle`. -/
def containsSub (needle : List Char) : List Char → Bool
  | [] => needle.isEmpty
  | c :: rest => List.isPrefixOf needle (c :: rest) || containsSub needle rest

/-- Embeds the Python membership test
`'application/pdf' in response.headers.get('Content-Type', '')`. -/
def ctIndicatesPdf (ct : String) : Bool :=
  containsSub "application/pdf".data ct.data

/-- Embeds `extract_content_from_url` (identical in both files):
GET the URL, `raise_for_status`, then either concatenate the text of all
PDF pages ( `"".join(page.extract_text() for page in reader.pages)` ) or
run `trafilatura.extract(response.text)`; every exception on the way is
caught and converted to `None`. -/
def extract_content_from_url (env : Env) (url : String) : Option String :=
  match env.httpGet url with
  | .error _ => none
  | .ok response =>
    if response.statusOk = false then none
    else if ctIndicatesPdf response.contentType then
      match env.pdfPages response.content with
      | .ok pages => some (String.join pages)
      | .error _ => none
    else
      match env.trafilaturaExtract response.text with
      | .ok t => t
      | .error _ => none

/-- Embeds the f-string prompt of `summarize_with_gemini` in src/agent.py,
with the two interpolations `{query}` and `{text}` made explicit. -/
def Agent.buildPrompt (text query : String) : String :=
  "\n    Based on the following extracted text and the original user query, create a short, structured report.\n    The report must include:\n    1. A clear, relevant title.\n    2. A brief summary of the main topics.\n    3. A few key bullet points highlighting the most important findings.\n\n    Original User Query: \"" ++ query ++
  "\"\n\n    Extracted Text:\n    ---\n    " ++ text ++ "\n    ---\n    "

/-- The non-sentinel branch of `summarize_with_gemini` in src/agent.py:
call Gemini on the prompt; a raised exception is caught and turned into
the prefixed error string. -/
def Agent.geminiBranch (env : Env) (text query : String) : String :=
  match env.geminiGenerate (Agent.buildPrompt text query) with
  | .ok r => r
  | .error e => "An error occurred during summarization: " ++ e

/-- Embeds `summarize_with_gemini` from src/agent.py: empty input returns
the fixed sentinel, otherwise the Gemini branch. -/
def Agent.summarize_with_gemini (env : Env) (text query : String) : String :=
  if text = "" then "Error: No text was extracted for summarization."
  else Agent.geminiBranch env text query

/-- Embeds the f-string prompt of `summarize_with_gemini` in
src/ai_research_agent/app.py. -/
def App.buildPrompt (text query : String) : String :=
  "\n    Based on the following extracted text and the original user query, create a short, structured report.\n    The report must include: A clear title, a brief summary, and a few key bullet points.\n    Original User Query: \"" ++ query ++
  "\"\n    Extracted Text: --- " ++ text ++ " --- "

/-- The non-sentinel branch of `summarize_with_gemini` in
src/ai_research_agent/app.py. -/
def App.geminiBranch (env : Env) (text query : String) : String :=
  match env.geminiGenerate (App.buildPrompt text query) with
  | .ok r => r
  | .error e => "An error occurred during summarization: " ++ e

/-- Embeds `summarize_with_gemini` from src/ai_research_agent/app.py. -/
def App.summarize_with_gemini (env : Env) (text query : String) : String :=
  if text = "" then "Error: No text for summarization."
  else App.geminiBranch env text query

/-- Embeds `", ".join(sources)` as used by both `save_report_to_db`
implementations. -/
def joinSources : List String → String
  | [] => ""
  | [u] => u
  | u :: v :: rest => u ++ ", " ++ joinSources (v :: rest)

/-- The `Report(...)` row constructed inside `save_report_to_db`
(both files): `sources` is the joined URL list, `timestamp` the
insert-time column default. -/
def mkReport (env : Env) (query report_content : String)
    (sources : List String) : Report :=
  { query := query, report_content := report_content,
    sources := joinSources sources, timestamp := env.now }

/-- Outcome of a `save_report_to_db` call: the committed rows,
whether the session was closed, and whether an exception escaped. -/
structure SaveResult where
  reports : List Report
  sessionClosed : Bool
  raised : Option PyErr
deriving DecidableEq

/-- Embeds `save_report_to_db` from src/agent.py: `try` add+commit,
`except` prints and rolls back (committed rows unchanged, no exception
escapes), `finally` closes the session. -/
def Agent.save_report_to_db (env : Env) (db : List Report)
    (query report_content : String) (sources : List String) : SaveResult :=
  let new_report := mkReport env query report_content sources
  match env.commitErr new_report with
  | none => ⟨db ++ [new_report], true, none⟩
  | some _ => ⟨db, true, none⟩

/-- Embeds `save_report_to_db` from src/ai_research_agent/app.py:
`try` add+commit with a `finally` that closes the session but no
`except` — a commit failure leaves the committed rows unchanged yet
propagates to the caller. -/
def App.save_report_to_db (env : Env) (db : List Report)
    (query report_content : String) (sources : List String) : SaveResult :=
  let new_report := mkReport env query report_content sources
  match env.commitErr new_report with
  | none => ⟨db ++ [new_report], true, none⟩
  | some e => ⟨db, true, some e⟩

/-- The `urls = search_online(query)` line shared by both `run_agent`
implementations (the call uses the default `max_results`, hence limit 3). -/
def pipelineUrls (env : Env) (query : String) : List String :=
  search_online env query

/-- Embeds the accumulation loop of `run_agent` in src/agent.py:
`all_content += content + "\n\n"` for every truthy extraction result
(Python truthiness skips both `None` and `""`). -/
def Agent.collectContent (env : Env) : List String → String
  | [] => ""
  | url :: rest =>
    (match extract_content_from_url env url with
     | some content => if content = "" then "" else content ++ "\n\n"
     | none => "") ++ Agent.collectContent env rest

/-- Embeds the comprehension of `run_agent` in src/ai_research_agent/app.py:
`"".join([content for url in urls if (content := extract_content_from_url(url))])`
— truthy extraction results concatenated with no separator. -/
def App.collectContent (env : Env) : List String → String
  | [] => ""
  | url :: rest =>
    (match extract_content_from_url env url with
     | some content => if content = "" then "" else content
     | none => "") ++ App.collectContent env rest

/-- Outcome of a `run_agent` call: committed rows and whether an
exception escaped the call. -/
structure RunResult where
  reports : List Report
  raised : Option PyErr
deriving DecidableEq

/-- Embeds `run_agent` from src/agent.py: early return on empty URL list
or empty concatenation; summarize; `if final_report:` (truthiness) guards
the save call. -/
def Agent.run_agent (env : Env) (db : List Report) (query : String) :
    RunResult :=
  let urls := pipelineUrls env query
  if urls = [] then ⟨db, none⟩
  else
    let all_content := Agent.collectContent env urls
    if all_content = "" then ⟨db, none⟩
    else
      let final_report := Agent.summarize_with_gemini env all_content query
      if final_report = "" then ⟨db, none⟩
      else
        let s := Agent.save_report_to_db env db query final_report urls
        ⟨s.reports, s.raised⟩

/-- Embeds `final_report.startswith("Error:")` at the Python level
(a prefix test on the character sequence). -/
def startsWithPy (s pre : String) : Bool :=
  List.isPrefixOf pre.data s.data

/-- Embeds `run_agent` from src/ai_research_agent/app.py: early return on
empty URL list or empty concatenation; summarize; persist only when
`final_report and not final_report.startswith("Error:")`; an exception
raised by `save_report_to_db` propagates out of `run_agent`. -/
def App.run_agent (env : Env) (db : List Report) (query : String) :
    RunResult :=
  let urls := pipelineUrls env query
  if urls = [] then ⟨db, none⟩
  else
    let all_content := App.collectContent env urls
    if all_content = "" then ⟨db, none⟩
    else
      let final_report := App.summarize_with_gemini env all_content query
      if final_report ≠ "" ∧ startsWithPy final_report "Error:" = false then
        let s := App.save_report_to_db env db query final_report urls
        ⟨s.reports, s.raised⟩
      else ⟨db, none⟩

/-- Observer: the text src/agent.py's `run_agent` passes to
`summarize_with_gemini`, `none` when control returns before that call
(mirrors the two guards of `run_agent` verbatim). -/
def Agent.summarizerInput (env : Env) (query : String) : Option String :=
  let urls := pipelineUrls env query
  if urls = [] then none
  else
    let all_content := Agent.collectContent env urls
    if all_content = "" then none else some all_content

/-- Observer: the text src/ai_research_agent/app.py's `run_agent` passes
to `summarize_with_gemini`, `none` when control returns before that call. -/
def App.summarizerInput (env : Env) (query : String) : Option String :=
  let urls := pipelineUrls env query
  if urls = [] then none
  else
    let all_content := App.collectContent env urls
    if all_content = "" then none else some all_content

/-- Embeds Python `str.split(", ")` on character lists: scan left to
right, cut at every non-overlapping occurrence of the two-character
separator `", "`. -/
def pySplitChars : List Char → List (List Char)
  | [] => [[]]
  | [c] => [[c]]
  | c₁ :: c₂ :: rest =>
    if c₁ = ',' ∧ c₂ = ' ' then [] :: pySplitChars rest
    else
      match pySplitChars (c₂ :: rest) with
      | [] => [[c₁]]
      | h :: t => (c₁ :: h) :: t

/-- Embeds `single_report.sources.split(", ")` from the app.py report
view. -/
def splitSources (s : String) : List String :=
  (pySplitChars s.data).map (fun cs => String.mk cs)

/-- Whether a character list contains the separator `", "` as a
contiguous substring (the precondition of the join/split round-trip). -/
def containsSep : List Char → Bool
  | c₁ :: c₂ :: rest => (c₁ == ',' && c₂ == ' ') || containsSep (c₂ :: rest)
  | _ => false

/-! Concrete environments used by witnesses and counterexamples. -/

/-- A fully successful single-URL environment: one search hit, an HTML
page extracting to `"T"`, Gemini answering `"R"`, commit succeeding. -/
def envHappy : Env := {
  tavilySearch := fun _ _ => .ok [⟨"http://a"⟩],
  httpGet := fun _ => .ok ⟨true, "text/html", [], "body"⟩,
  pdfPages := fun _ => .error "nopdf",
  trafilaturaExtract := fun _ => .ok (some "T"),
  geminiGenerate := fun _ => .ok "R",
  commitErr := fun _ => none,
  now := 0 }

/-- Like `envHappy` but the Gemini call raises. -/
def envSingleHtml : Env :=
  { envHappy with geminiGenerate := fun _ => .error "boom" }

/-- Two search hits, the second URL failing to fetch; everything else
succeeds. -/
def envTwoUrls : Env := {
  tavilySearch := fun _ _ => .ok [⟨"http://a"⟩, ⟨"http://b"⟩],
  httpGet := fun url =>
    if url = "http://a" then .ok ⟨true, "text/html", [], "body"⟩
    else .error "down",
  pdfPages := fun _ => .error "nopdf",
  trafilaturaExtract := fun _ => .ok (some "T"),
  geminiGenerate := fun _ => .ok "R",
  commitErr := fun _ => none,
  now := 7 }

/-- Like `envHappy` but the search backend raises. -/
def envSearchFail : Env :=
  { envHappy with tavilySearch := fun _ _ => .error "net" }

/-- Like `envHappy` but every fetch raises. -/
def envFetchFail : Env :=
  { envHappy with httpGet := fun _ => .error "timeout" }

/-- Like `envHappy` but the database commit raises. -/
def envCommitFail : Env :=
  { envHappy with commitErr := fun _ => some "disk full" }

/-- URL-keyed environment exercising every branch of
`extract_content_from_url`: a failing fetch, a bad HTTP status, a good
PDF, a corrupt PDF, extractable HTML, and HTML whose extraction raises. -/
def envC7 : Env := {
  tavilySearch := fun _ _ => .ok [],
  httpGet := fun url =>
    if url = "err" then .error "down"
    else if url = "bad" then .ok ⟨false, "text/html", [], ""⟩
    else if url = "pdf" then .ok ⟨true, "application/pdf", [0], ""⟩
    else if url = "pdfbad" then .ok ⟨true, "application/pdf", [1], ""⟩
    else if url = "html" then .ok ⟨true, "text/html", [], "good"⟩
    else .ok ⟨true, "text/html", [], "junk"⟩,
  pdfPages := fun b => if b = [0] then .ok ["p1", "p2"] else .error "corrupt",
  trafilaturaExtract := fun t =>
    if t = "good" then .ok (some "T") else .error "parse",
  geminiGenerate := fun _ => .ok "R",
  commitErr := fun _ => none,
  now := 0 }

/-! Helper lemmas about the join/split pair and the pipeline. -/

theorem pySplitChars_cons_cons (c₁ c₂ : Char) (rest : List Char) :
    pySplitChars (c₁ :: c₂ :: rest) =
      if c₁ = ',' ∧ c₂ = ' ' then [] :: pySplitChars rest
      else
        match pySplitChars (c₂ :: rest) with
        | [] => [[c₁]]
        | h :: t => (c₁ :: h) :: t := by
  simp only [pySplitChars]

theorem pySplitChars_sep_cons (v : List Char) :
    pySplitChars (',' :: ' ' :: v) = [] :: pySplitChars v := by
  rw [pySplitChars_cons_cons, if_pos ⟨rfl, rfl⟩]

theorem containsSep_cons_cons (c₁ c₂ : Char) (rest : List Char)
    (h : containsSep (c₁ :: c₂ :: rest) = false) :
    ¬(c₁ = ',' ∧ c₂ = ' ') ∧ containsSep (c₂ :: rest) = false := by
  simp only [containsSep, Bool.or_eq_false_iff, Bool.and_eq_false_iff,
    beq_eq_false_iff_ne, ne_eq] at h
  obtain ⟨h1, h2⟩ := h
  exact ⟨by rintro ⟨hc, hc2⟩; rcases h1 with h1 | h1 <;> simp_all, h2⟩

theorem pySplitChars_of_not_containsSep :
    ∀ l : List Char, containsSep l = false → pySplitChars l = [l] := by
  intro l
  induction l with
  | nil => intro _; rfl
  | cons c rest ih =>
    intro h
    cases rest with
    | nil => rfl
    | cons c₂ rest₂ =>
      obtain ⟨h1, h2⟩ := containsSep_cons_cons _ _ _ h
      rw [pySplitChars_cons_cons, if_neg h1, ih h2]

theorem pySplitChars_append (u v : List Char) (h : containsSep u = false) :
    pySplitChars (u ++ ',' :: ' ' :: v) = u :: pySplitChars v := by
  induction u with
  | nil => simpa using pySplitChars_sep_cons v
  | cons c u' ih =>
    cases u' with
    | nil =>
      rw [List.cons_append, List.nil_append, pySplitChars_cons_cons,
        if_neg (by rintro ⟨-, hc⟩; exact absurd hc (by decide)),
        pySplitChars_sep_cons]
    | cons c₂ u'' =>
      obtain ⟨h1, h2⟩ := containsSep_cons_cons _ _ _ h
      rw [List.cons_append] at ih
      rw [List.cons_append, List.cons_append, pySplitChars_cons_cons,
        if_neg (by rintro ⟨hc, hc2⟩; exact h1 ⟨hc, hc2⟩)]
      rw [ih h2]

/-- Splitting the joined source list on `", "` recovers the list, for a
nonempty URL list none of whose members contains the separator. -/
theorem splitSources_joinSources (us : List String) (hne : us ≠ [])
    (h : ∀ u ∈ us, containsSep u.data = false) :
    splitSources (joinSources us) = us := by
  induction us with
  | nil => exact absurd rfl hne
  | cons u us ih =>
    cases us with
    | nil =>
      show (pySplitChars (joinSources [u]).data).map _ = [u]
      have h1 : joinSources [u] = u := rfl
      rw [h1, pySplitChars_of_not_containsSep u.data (h u (by simp))]
      rfl
    | cons v rest =>
      show (pySplitChars (joinSources (u :: v :: rest)).data).map _
        = u :: v :: rest
      have hdata : (joinSources (u :: v :: rest)).data
          = u.data ++ ',' :: ' ' :: (joinSources (v :: rest)).data := by
        show (u ++ ", " ++ joinSources (v :: rest)).data = _
        show (u.data ++ [',', ' ']) ++ (joinSources (v :: rest)).data = _
        rw [List.append_assoc]
        rfl
      rw [hdata, pySplitChars_append _ _ (h u (by simp))]
      simp only [List.map_cons]
      have hmk : String.mk u.data = u := rfl
      rw [hmk]
      congr 1
      exact ih (by simp) (fun x hx => h x (by simp [hx]))

/-! General helper lemmas. -/

theorem list_self_ne_append_singleton {α : Type} (l : List α) (a : α) :
    ¬ (l = l ++ [a]) := by
  intro h
  have := congrArg List.length h
  simp at this

theorem list_append_singleton_inj {α : Type} {l : List α} {a b : α}
    (h : l ++ [a] = l ++ [b]) : a = b := by
  simpa using h

theorem isPrefixOf_self_append (l₁ l₂ : List Char) :
    List.isPrefixOf l₁ (l₁ ++ l₂) = true := by
  induction l₁ with
  | nil => simp [List.isPrefixOf]
  | cons c rest ih => simp [List.isPrefixOf, ih]

theorem startsWithPy_self_append (p e : String) :
    startsWithPy (p ++ e) p = true := by
  show List.isPrefixOf p.data (p.data ++ e.data) = true
  exact isPrefixOf_self_append _ _

/-- When every URL extracts to `None` or to the empty string (both falsy
in Python), the accumulated content is empty in both pipeline variants. -/
theorem collectContent_of_all_trivial (env : Env) (urls : List String)
    (h : ∀ u ∈ urls, extract_content_from_url env u = none
      ∨ extract_content_from_url env u = some "") :
    Agent.collectContent env urls = "" ∧ App.collectContent env urls = "" := by
  induction urls with
  | nil => exact ⟨rfl, rfl⟩
  | cons u rest ih =>
    obtain ⟨ih1, ih2⟩ := ih (fun v hv => h v (by simp [hv]))
    rcases h u (by simp) with hu | hu <;>
      simp [Agent.collectContent, App.collectContent, hu, ih1, ih2]

/-- Content accumulation is a homomorphism for list append: processing
the URLs in order concatenates the per-URL contributions in order. -/
theorem collectContent_append (env : Env) (xs ys : List String) :
    Agent.collectContent env (xs ++ ys)
      = Agent.collectContent env xs ++ Agent.collectContent env ys
    ∧ App.collectContent env (xs ++ ys)
      = App.collectContent env xs ++ App.collectContent env ys := by
  induction xs with
  | nil => constructor <;> simp [Agent.collectContent, App.collectContent]
  | cons u rest ih =>
    obtain ⟨ih1, ih2⟩ := ih
    constructor <;>
      simp [Agent.collectContent, App.collectContent, ih1, ih2,
        String.append_assoc]

/-! Claim C1. -/

/-- Claim C1 counterexample: in a run where Gemini raises, the
summarizer returns the backend-failure error string, yet both
orchestrators persist a Report whose content is that error string —
refuting the claim that a Report is appended only when the summarizer
result is not an error sentinel. -/
theorem c1_counterexample :
    (Agent.run_agent envSingleHtml [] "q").reports
      = [⟨"q", "An error occurred during summarization: boom", "http://a", 0⟩]
    ∧ (App.run_agent envSingleHtml [] "q").reports
      = [⟨"q", "An error occurred during summarization: boom", "http://a", 0⟩] := by
  exact ⟨rfl, rfl⟩

/-- Claim C1 (amended): when a run reaches the summarizing step and the
commit succeeds, src/agent.py appends a Report iff the summarizer result
is non-empty, and src/ai_research_agent/app.py appends iff the result is
non-empty and does not start with `"Error:"` — so the empty-input
sentinel is excluded only by app.py, while the backend-failure error
string is persisted by both.  The persisted Report records the query,
the report text, and the join of the original full URL list, including
URLs whose extraction failed. -/
theorem c1_persist_guard_amended (env : Env) (db : List Report) (q : String)
    (urls : List String) (frA frB : String)
    (hurls : pipelineUrls env q = urls) (hne : urls ≠ [])
    (hA : Agent.collectContent env urls ≠ "")
    (hB : App.collectContent env urls ≠ "")
    (hfrA : Agent.summarize_with_gemini env (Agent.collectContent env urls) q = frA)
    (hfrB : App.summarize_with_gemini env (App.collectContent env urls) q = frB)
    (hcA : env.commitErr (mkReport env q frA urls) = none)
    (hcB : env.commitErr (mkReport env q frB urls) = none) :
    ((Agent.run_agent env db q).reports = db ++ [mkReport env q frA urls] ↔ frA ≠ "")
    ∧ ((App.run_agent env db q).reports = db ++ [mkReport env q frB urls]
        ↔ (frB ≠ "" ∧ startsWithPy frB "Error:" = false))
    ∧ (mkReport env q frA urls).query = q
    ∧ (mkReport env q frA urls).report_content = frA
    ∧ (mkReport env q frA urls).sources = joinSources urls := by
  refine ⟨?_, ?_, rfl, rfl, rfl⟩
  · simp only [Agent.run_agent, hurls, if_neg hne, if_neg hA, hfrA]
    by_cases hfr : frA = ""
    · rw [if_pos hfr]
      exact iff_of_false (list_self_ne_append_singleton db _) (by simp [hfr])
    · rw [if_neg hfr]
      simp only [Agent.save_report_to_db, hcA]
      exact iff_of_true trivial hfr
  · simp only [App.run_agent, hurls, if_neg hne, if_neg hB, hfrB]
    by_cases hg : frB ≠ "" ∧ startsWithPy frB "Error:" = false
    · rw [if_pos hg]
      simp only [App.save_report_to_db, hcB]
      exact iff_of_true trivial hg
    · rw [if_neg hg]
      exact iff_of_false (list_self_ne_append_singleton db _) hg

/-- Witness for `c1_persist_guard_amended` at `envHappy`. -/
theorem c1_witness :
    pipelineUrls envHappy "q" = ["http://a"]
    ∧ (["http://a"] : List String) ≠ []
    ∧ Agent.collectContent envHappy ["http://a"] ≠ ""
    ∧ App.collectContent envHappy ["http://a"] ≠ ""
    ∧ envHappy.commitErr (mkReport envHappy "q" "R" ["http://a"]) = none
    ∧ ((Agent.run_agent envHappy [] "q").reports
        = [] ++ [mkReport envHappy "q" "R" ["http://a"]] ↔ ("R" : String) ≠ "")
    ∧ ((App.run_agent envHappy [] "q").reports
        = [] ++ [mkReport envHappy "q" "R" ["http://a"]]
        ↔ (("R" : String) ≠ "" ∧ startsWithPy "R" "Error:" = false)) := by
  have h := c1_persist_guard_amended envHappy [] "q" ["http://a"] "R" "R"
    rfl (by decide) (by decide) (by decide) rfl rfl rfl rfl
  exact ⟨rfl, by decide, by decide, by decide, rfl, h.1, h.2.1⟩

/-! Claim C2. -/

/-- Claim C2: for every run of either orchestrator that appends a
Report, splitting the stored `sources` string on the join separator
`", "` yields exactly the original URL list in order — independent of
per-URL extraction success — provided no URL contains the separator. -/
theorem c2_sources_roundtrip (env : Env) (db : List Report) (q : String)
    (r : Report)
    (hsep : ∀ u ∈ pipelineUrls env q, containsSep u.data = false) :
    ((Agent.run_agent env db q).reports = db ++ [r] →
      splitSources r.sources = pipelineUrls env q)
    ∧ ((App.run_agent env db q).reports = db ++ [r] →
      splitSources r.sources = pipelineUrls env q) := by
  constructor
  · intro h
    simp only [Agent.run_agent] at h
    by_cases hu : pipelineUrls env q = []
    · rw [if_pos hu] at h
      exact absurd h (list_self_ne_append_singleton db r)
    · rw [if_neg hu] at h
      by_cases hc : Agent.collectContent env (pipelineUrls env q) = ""
      · rw [if_pos hc] at h
        exact absurd h (list_self_ne_append_singleton db r)
      · rw [if_neg hc] at h
        by_cases hf : Agent.summarize_with_gemini env
            (Agent.collectContent env (pipelineUrls env q)) q = ""
        · rw [if_pos hf] at h
          exact absurd h (list_self_ne_append_singleton db r)
        · rw [if_neg hf] at h
          simp only [Agent.save_report_to_db] at h
          cases hce : env.commitErr (mkReport env q
              (Agent.summarize_with_gemini env
                (Agent.collectContent env (pipelineUrls env q)) q)
              (pipelineUrls env q)) with
          | none =>
            rw [hce] at h
            simp only at h
            have hr := list_append_singleton_inj h
            rw [← hr]
            show splitSources (joinSources (pipelineUrls env q))
              = pipelineUrls env q
            exact splitSources_joinSources _ hu hsep
          | some e =>
            rw [hce] at h
            simp only at h
            exact absurd h (list_self_ne_append_singleton db r)
  · intro h
    simp only [App.run_agent] at h
    by_cases hu : pipelineUrls env q = []
    · rw [if_pos hu] at h
      exact absurd h (list_self_ne_append_singleton db r)
    · rw [if_neg hu] at h
      by_cases hc : App.collectContent env (pipelineUrls env q) = ""
      · rw [if_pos hc] at h
        exact absurd h (list_self_ne_append_singleton db r)
      · rw [if_neg hc] at h
        by_cases hg : App.summarize_with_gemini env
              (App.collectContent env (pipelineUrls env q)) q ≠ ""
            ∧ startsWithPy (App.summarize_with_gemini env
              (App.collectContent env (pipelineUrls env q)) q) "Error:" = false
        · rw [if_pos hg] at h
          simp only [App.save_report_to_db] at h
          cases hce : env.commitErr (mkReport env q
              (App.summarize_with_gemini env
                (App.collectContent env (pipelineUrls env q)) q)
              (pipelineUrls env q)) with
          | none =>
            rw [hce] at h
            simp only at h
            have hr := list_append_singleton_inj h
            rw [← hr]
            show splitSources (joinSources (pipelineUrls env q))
              = pipelineUrls env q
            exact splitSources_joinSources _ hu hsep
          | some e =>
            rw [hce] at h
            simp only at h
            exact absurd h (list_self_ne_append_singleton db r)
        · rw [if_neg hg] at h
          exact absurd h (list_self_ne_append_singleton db r)

/-- Witness for `c2_sources_roundtrip` at `envTwoUrls`, where the second
URL fails to fetch yet is still recorded and round-trips. -/
theorem c2_witness :
    (∀ u ∈ pipelineUrls envTwoUrls "q", containsSep u.data = false)
    ∧ (App.run_agent envTwoUrls [] "q").reports
        = [] ++ [mkReport envTwoUrls "q" "R" ["http://a", "http://b"]]
    ∧ (Agent.run_agent envTwoUrls [] "q").reports
        = [] ++ [mkReport envTwoUrls "q" "R" ["http://a", "http://b"]]
    ∧ extract_content_from_url envTwoUrls "http://b" = none
    ∧ splitSources (mkReport envTwoUrls "q" "R" ["http://a", "http://b"]).sources
        = pipelineUrls envTwoUrls "q" := by
  have hsep : ∀ u ∈ pipelineUrls envTwoUrls "q", containsSep u.data = false := by
    decide
  have happ : (App.run_agent envTwoUrls [] "q").reports
      = [] ++ [mkReport envTwoUrls "q" "R" ["http://a", "http://b"]] := by decide
  exact ⟨hsep, happ, by decide, rfl,
    (c2_sources_roundtrip envTwoUrls [] "q" _ hsep).2 happ⟩

/-! Claim C3. -/

/-- Claim C3 counterexample: in an app.py run over one URL whose page
extracts to `"T"`, the string passed to the summarizer is `"T"`, not
`"T"` followed by the blank-line separator — refuting the claim that the
orchestrator concatenates extracted texts with a separating blank line. -/
theorem c3_counterexample :
    App.summarizerInput envSingleHtml "q" = some "T"
    ∧ extract_content_from_url envSingleHtml "http://a" = some "T"
    ∧ App.summarizerInput envSingleHtml "q" ≠ some ("T" ++ "\n\n") := by
  exact ⟨rfl, rfl, by decide⟩

/-- Claim C3 (amended): both orchestrators concatenate the truthy
(non-null, non-empty) extracted texts preserving URL order, but only
src/agent.py appends the blank-line separator `"\n\n"` after each text;
src/ai_research_agent/app.py concatenates with no separator.  Hence in a
run where exactly one URL yields extractable text the summarizer input
is that text plus the trailing separator for agent.py, and exactly that
text for app.py. -/
theorem c3_concatenation_amended (env : Env) (l₁ l₂ : List String) (u c : String)
    (hu : extract_content_from_url env u = some c) (hc : c ≠ "")
    (h1 : ∀ v ∈ l₁, extract_content_from_url env v = none
      ∨ extract_content_from_url env v = some "")
    (h2 : ∀ v ∈ l₂, extract_content_from_url env v = none
      ∨ extract_content_from_url env v = some "") :
    Agent.collectContent env (l₁ ++ u :: l₂) = c ++ "\n\n"
    ∧ App.collectContent env (l₁ ++ u :: l₂) = c := by
  obtain ⟨e1A, e1B⟩ := collectContent_of_all_trivial env l₁ h1
  obtain ⟨e2A, e2B⟩ := collectContent_of_all_trivial env l₂ h2
  obtain ⟨apA, apB⟩ := collectContent_append env l₁ (u :: l₂)
  constructor
  · rw [apA, e1A]
    simp [Agent.collectContent, hu, hc, e2A]
  · rw [apB, e1B]
    simp [App.collectContent, hu, hc, e2B]

/-- Witness for `c3_concatenation_amended` at `envHappy` with the single
URL `"http://a"`. -/
theorem c3_witness :
    extract_content_from_url envHappy "http://a" = some "T"
    ∧ ("T" : String) ≠ ""
    ∧ Agent.collectContent envHappy ([] ++ "http://a" :: []) = "T" ++ "\n\n"
    ∧ App.collectContent envHappy ([] ++ "http://a" :: []) = "T" := by
  have h := c3_concatenation_amended envHappy [] [] "http://a" "T"
    rfl (by decide) (by simp) (by simp)
  exact ⟨rfl, by decide, h.1, h.2⟩

/-! Claim C4. -/

/-- Claim C4: if the search step yields an empty URL list, or if no URL
yields any (truthy) extracted content, both orchestrators terminate with
the store unchanged and no exception raised. -/
theorem c4_empty_run_no_persist (env : Env) (db : List Report) (q : String) :
    (search_online env q = [] →
      Agent.run_agent env db q = ⟨db, none⟩
      ∧ App.run_agent env db q = ⟨db, none⟩)
    ∧ ((∀ u ∈ search_online env q, extract_content_from_url env u = none
          ∨ extract_content_from_url env u = some "") →
      Agent.run_agent env db q = ⟨db, none⟩
      ∧ App.run_agent env db q = ⟨db, none⟩) := by
  constructor
  · intro h
    constructor <;> simp [Agent.run_agent, App.run_agent, pipelineUrls, h]
  · intro hext
    obtain ⟨hA, hB⟩ := collectContent_of_all_trivial env (search_online env q) hext
    by_cases hu : search_online env q = [] <;>
      constructor <;>
        simp [Agent.run_agent, App.run_agent, pipelineUrls, hu, hA, hB]

/-- Witness for `c4_empty_run_no_persist`: an environment whose search
raises (empty URL list) and one where every fetch times out. -/
theorem c4_witness :
    search_online envSearchFail "q" = []
    ∧ Agent.run_agent envSearchFail [] "q" = ⟨[], none⟩
    ∧ App.run_agent envSearchFail [] "q" = ⟨[], none⟩
    ∧ (∀ u ∈ search_online envFetchFail "q",
        extract_content_from_url envFetchFail u = none
        ∨ extract_content_from_url envFetchFail u = some "")
    ∧ Agent.run_agent envFetchFail [] "q" = ⟨[], none⟩
    ∧ App.run_agent envFetchFail [] "q" = ⟨[], none⟩ := by
  have h1 := (c4_empty_run_no_persist envSearchFail [] "q").1 rfl
  have hext : ∀ u ∈ search_online envFetchFail "q",
      extract_content_from_url envFetchFail u = none
      ∨ extract_content_from_url envFetchFail u = some "" := by decide
  have h2 := (c4_empty_run_no_persist envFetchFail [] "q").2 hext
  exact ⟨rfl, h1.1, h1.2, hext, h2.1, h2.2⟩

/-! Claim C5. -/

/-- Claim C5: whenever the search backend raises, `search_online`
returns the empty list instead of propagating the exception. -/
theorem c5_search_failure_empty (env : Env) (q : String) (n : Nat) (e : PyErr)
    (h : env.tavilySearch q n = .error e) :
    search_online env q n = [] := by
  simp [search_online, h]

/-- Witness for `c5_search_failure_empty` at `envSearchFail`. -/
theorem c5_witness :
    envSearchFail.tavilySearch "q" 3 = .error "net"
    ∧ search_online envSearchFail "q" 3 = [] := by
  exact ⟨rfl, c5_search_failure_empty envSearchFail "q" 3 "net" rfl⟩

/-! Claim C6. -/

/-- Claim C6: assuming the search backend honours the requested result
count (the code itself does not truncate), `search_online` returns at
most `limit` URLs for any `limit ≥ 1`; and the orchestrators invoke the
search with the fixed default limit 3. -/
theorem c6_search_limit (env : Env) (q : String) (limit : Nat)
    (h1 : 1 ≤ limit)
    (h2 : ∀ items, env.tavilySearch q limit = .ok items →
      items.length ≤ limit) :
    (search_online env q limit).length ≤ limit
    ∧ pipelineUrls env q = search_online env q 3 := by
  refine ⟨?_, rfl⟩
  unfold search_online
  cases htv : env.tavilySearch q limit with
  | ok items => simpa using h2 items htv
  | error e => simp

/-- Witness for `c6_search_limit` at `envHappy` with limit 3. -/
theorem c6_witness :
    1 ≤ 3
    ∧ (∀ items, envHappy.tavilySearch "q" 3 = .ok items → items.length ≤ 3)
    ∧ (search_online envHappy "q" 3).length ≤ 3
    ∧ pipelineUrls envHappy "q" = search_online envHappy "q" 3 := by
  have hb : ∀ items, envHappy.tavilySearch "q" 3 = .ok items →
      items.length ≤ 3 := by
    intro items h
    have h' : Except.ok (ε := PyErr) [SearchItem.mk "http://a"]
        = Except.ok items := h
    injection h' with h2
    subst h2
    decide
  have h := c6_search_limit envHappy "q" 3 (by decide) hb
  exact ⟨by decide, hb, h.1, h.2⟩

/-! Claim C7. -/

/-- Claim C7: `extract_content_from_url` returns the in-order
concatenation of all PDF page texts when the content type indicates PDF,
applies the HTML boilerplate-stripping extractor otherwise, and returns
`None` whenever the fetch fails, the HTTP status is bad, or either
parser raises. -/
theorem c7_extract_branches (env : Env) (url : String) :
    (∀ e, env.httpGet url = .error e →
      extract_content_from_url env url = none)
    ∧ (∀ resp, env.httpGet url = .ok resp → resp.statusOk = false →
      extract_content_from_url env url = none)
    ∧ (∀ resp pages, env.httpGet url = .ok resp → resp.statusOk = true →
      ctIndicatesPdf resp.contentType = true →
      env.pdfPages resp.content = .ok pages →
      extract_content_from_url env url = some (String.join pages))
    ∧ (∀ resp e, env.httpGet url = .ok resp → resp.statusOk = true →
      ctIndicatesPdf resp.contentType = true →
      env.pdfPages resp.content = .error e →
      extract_content_from_url env url = none)
    ∧ (∀ resp t, env.httpGet url = .ok resp → resp.statusOk = true →
      ctIndicatesPdf resp.contentType = false →
      env.trafilaturaExtract resp.text = .ok t →
      extract_content_from_url env url = t)
    ∧ (∀ resp e, env.httpGet url = .ok resp → resp.statusOk = true →
      ctIndicatesPdf resp.contentType = false →
      env.trafilaturaExtract resp.text = .error e →
      extract_content_from_url env url = none) := by
  refine ⟨?_, ?_, ?_, ?_, ?_, ?_⟩ <;> intros <;>
    simp_all [extract_content_from_url]

/-- Witness for `c7_extract_branches` at `envC7`, covering all six
branches. -/
theorem c7_witness :
    envC7.httpGet "err" = .error "down"
    ∧ extract_content_from_url envC7 "err" = none
    ∧ envC7.httpGet "bad" = .ok ⟨false, "text/html", [], ""⟩
    ∧ extract_content_from_url envC7 "bad" = none
    ∧ ctIndicatesPdf "application/pdf" = true
    ∧ envC7.pdfPages [0] = .ok ["p1", "p2"]
    ∧ extract_content_from_url envC7 "pdf" = some (String.join ["p1", "p2"])
    ∧ envC7.pdfPages [1] = .error "corrupt"
    ∧ extract_content_from_url envC7 "pdfbad" = none
    ∧ ctIndicatesPdf "text/html" = false
    ∧ envC7.trafilaturaExtract "good" = .ok (some "T")
    ∧ extract_content_from_url envC7 "html" = some "T"
    ∧ envC7.trafilaturaExtract "junk" = .error "parse"
    ∧ extract_content_from_url envC7 "junk2" = none := by
  refine ⟨rfl, (c7_extract_branches envC7 "err").1 "down" rfl,
    rfl, (c7_extract_branches envC7 "bad").2.1 ⟨false, "text/html", [], ""⟩ rfl rfl,
    by decide, rfl,
    (c7_extract_branches envC7 "pdf").2.2.1 ⟨true, "application/pdf", [0], ""⟩
      ["p1", "p2"] rfl rfl (by decide) rfl,
    rfl,
    (c7_extract_branches envC7 "pdfbad").2.2.2.1 ⟨true, "application/pdf", [1], ""⟩
      "corrupt" rfl rfl (by decide) rfl,
    by decide, rfl,
    (c7_extract_branches envC7 "html").2.2.2.2.1 ⟨true, "text/html", [], "good"⟩
      (some "T") rfl rfl (by decide) rfl,
    rfl,
    (c7_extract_branches envC7 "junk2").2.2.2.2.2 ⟨true, "text/html", [], "junk"⟩
      "parse" rfl rfl (by decide) rfl⟩

/-! Claim C8. -/

/-- Claim C8: each summarizer is a total function (no exception can
escape): empty input yields that file's fixed sentinel string, a backend
failure yields a descriptive error string carrying the distinctive
prefix `"An error occurred during summarization: "`, and otherwise the
backend's response text is returned unchanged. -/
theorem c8_summarizer_total (env : Env) (text query : String) :
    (text = "" →
      Agent.summarize_with_gemini env text query
        = "Error: No text was extracted for summarization."
      ∧ App.summarize_with_gemini env text query
        = "Error: No text for summarization.")
    ∧ (text ≠ "" → ∀ r, env.geminiGenerate (Agent.buildPrompt text query) = .ok r →
      Agent.summarize_with_gemini env text query = r)
    ∧ (text ≠ "" → ∀ e, env.geminiGenerate (Agent.buildPrompt text query) = .error e →
      Agent.summarize_with_gemini env text query
        = "An error occurred during summarization: " ++ e
      ∧ startsWithPy (Agent.summarize_with_gemini env text query)
          "An error occurred during summarization: " = true)
    ∧ (text ≠ "" → ∀ r, env.geminiGenerate (App.buildPrompt text query) = .ok r →
      App.summarize_with_gemini env text query = r)
    ∧ (text ≠ "" → ∀ e, env.geminiGenerate (App.buildPrompt text query) = .error e →
      App.summarize_with_gemini env text query
        = "An error occurred during summarization: " ++ e
      ∧ startsWithPy (App.summarize_with_gemini env text query)
          "An error occurred during summarization: " = true) := by
  refine ⟨?_, ?_, ?_, ?_, ?_⟩
  · intro h
    constructor <;>
      simp [Agent.summarize_with_gemini, App.summarize_with_gemini, h]
  · intro h r hr
    simp [Agent.summarize_with_gemini, Agent.geminiBranch, h, hr]
  · intro h e he
    have h1 : Agent.summarize_with_gemini env text query
        = "An error occurred during summarization: " ++ e := by
      simp [Agent.summarize_with_gemini, Agent.geminiBranch, h, he]
    exact ⟨h1, by rw [h1]; exact startsWithPy_self_append _ _⟩
  · intro h r hr
    simp [App.summarize_with_gemini, App.geminiBranch, h, hr]
  · intro h e he
    have h1 : App.summarize_with_gemini env text query
        = "An error occurred during summarization: " ++ e := by
      simp [App.summarize_with_gemini, App.geminiBranch, h, he]
    exact ⟨h1, by rw [h1]; exact startsWithPy_self_append _ _⟩

/-- Witness for `c8_summarizer_total` at `envHappy` (backend success)
and `envSingleHtml` (backend failure). -/
theorem c8_witness :
    Agent.summarize_with_gemini envHappy "" "q"
      = "Error: No text was extracted for summarization."
    ∧ App.summarize_with_gemini envHappy "" "q"
      = "Error: No text for summarization."
    ∧ ("T" : String) ≠ ""
    ∧ envHappy.geminiGenerate (Agent.buildPrompt "T" "q") = .ok "R"
    ∧ Agent.summarize_with_gemini envHappy "T" "q" = "R"
    ∧ App.summarize_with_gemini envHappy "T" "q" = "R"
    ∧ envSingleHtml.geminiGenerate (Agent.buildPrompt "T" "q") = .error "boom"
    ∧ Agent.summarize_with_gemini envSingleHtml "T" "q"
        = "An error occurred during summarization: " ++ "boom"
    ∧ startsWithPy (Agent.summarize_with_gemini envSingleHtml "T" "q")
        "An error occurred during summarization: " = true
    ∧ App.summarize_with_gemini envSingleHtml "T" "q"
        = "An error occurred during summarization: " ++ "boom"
    ∧ startsWithPy (App.summarize_with_gemini envSingleHtml "T" "q")
        "An error occurred during summarization: " = true := by
  obtain ⟨hA, hB⟩ := (c8_summarizer_total envHappy "" "q").1 rfl
  obtain ⟨hA2, hA3⟩ := (c8_summarizer_total envSingleHtml "T" "q").2.2.1
    (by decide) "boom" rfl
  obtain ⟨hB2, hB3⟩ := (c8_summarizer_total envSingleHtml "T" "q").2.2.2.2
    (by decide) "boom" rfl
  exact ⟨hA, hB, by decide, rfl,
    (c8_summarizer_total envHappy "T" "q").2.1 (by decide) "R" rfl,
    (c8_summarizer_total envHappy "T" "q").2.2.2.1 (by decide) "R" rfl,
    rfl, hA2, hA3, hB2, hB3⟩

/-! Claim C9. -/

/-- Claim C9 counterexample: with a failing commit, the exception
escapes app.py's `save_report_to_db` and then its `run_agent` — refuting
the claim that a persistence failure is caught inside the store
operation and never reaches the orchestrator.  (agent.py does swallow
it.) -/
theorem c9_counterexample :
    (App.save_report_to_db envCommitFail [] "q" "R" ["http://a"]).raised
      = some "disk full"
    ∧ (App.run_agent envCommitFail [] "q").raised = some "disk full"
    ∧ (Agent.run_agent envCommitFail [] "q").raised = none := by
  exact ⟨rfl, rfl, rfl⟩

/-- Claim C9 (amended): both `save_report_to_db` implementations close
the session on every exit path and leave the committed store unchanged
when the commit fails; src/agent.py additionally catches the failure
(rollback, no exception escapes), while src/ai_research_agent/app.py
has no handler and the commit exception propagates to its caller. -/
theorem c9_save_behavior_amended (env : Env) (db : List Report)
    (q rc : String) (srcs : List String) :
    (Agent.save_report_to_db env db q rc srcs).sessionClosed = true
    ∧ (Agent.save_report_to_db env db q rc srcs).raised = none
    ∧ (env.commitErr (mkReport env q rc srcs) = none →
      (Agent.save_report_to_db env db q rc srcs).reports
        = db ++ [mkReport env q rc srcs])
    ∧ (∀ e, env.commitErr (mkReport env q rc srcs) = some e →
      (Agent.save_report_to_db env db q rc srcs).reports = db)
    ∧ (App.save_report_to_db env db q rc srcs).sessionClosed = true
    ∧ (env.commitErr (mkReport env q rc srcs) = none →
      (App.save_report_to_db env db q rc srcs).reports
        = db ++ [mkReport env q rc srcs]
      ∧ (App.save_report_to_db env db q rc srcs).raised = none)
    ∧ (∀ e, env.commitErr (mkReport env q rc srcs) = some e →
      (App.save_report_to_db env db q rc srcs).reports = db
      ∧ (App.save_report_to_db env db q rc srcs).raised = some e) := by
  cases hce : env.commitErr (mkReport env q rc srcs) <;>
    simp [Agent.save_report_to_db, App.save_report_to_db, hce]

/-- Witness for `c9_save_behavior_amended` at `envHappy` (commit
succeeds) and `envCommitFail` (commit raises). -/
theorem c9_witness :
    envHappy.commitErr (mkReport envHappy "q" "R" ["http://a"]) = none
    ∧ (Agent.save_report_to_db envHappy [] "q" "R" ["http://a"]).sessionClosed
        = true
    ∧ (Agent.save_report_to_db envHappy [] "q" "R" ["http://a"]).raised = none
    ∧ (Agent.save_report_to_db envHappy [] "q" "R" ["http://a"]).reports
        = [] ++ [mkReport envHappy "q" "R" ["http://a"]]
    ∧ envCommitFail.commitErr (mkReport envCommitFail "q" "R" ["http://a"])
        = some "disk full"
    ∧ (Agent.save_report_to_db envCommitFail [] "q" "R" ["http://a"]).reports = []
    ∧ (Agent.save_report_to_db envCommitFail [] "q" "R" ["http://a"]).raised = none
    ∧ (App.save_report_to_db envCommitFail [] "q" "R" ["http://a"]).reports = []
    ∧ (App.save_report_to_db envCommitFail [] "q" "R" ["http://a"]).raised
        = some "disk full"
    ∧ (App.save_report_to_db envCommitFail [] "q" "R" ["http://a"]).sessionClosed
        = true := by
  have h1 := c9_save_behavior_amended envHappy [] "q" "R" ["http://a"]
  have h2 := c9_save_behavior_amended envCommitFail [] "q" "R" ["http://a"]
  exact ⟨rfl, h1.1, h1.2.1, h1.2.2.1 rfl, rfl,
    h2.2.2.2.1 "disk full" rfl, h2.2.1,
    (h2.2.2.2.2.2.2 "disk full" rfl).1,
    (h2.2.2.2.2.2.2 "disk full" rfl).2,
    h2.2.2.2.2.1⟩

/-! Claim C10. -/

/-- Claim C10: every summarizer call made by either pipeline receives
non-empty text (so the empty-input sentinel branch is unreachable from
`run_agent` and the call reduces to the Gemini branch); and when the
guards return early, `run_agent` terminates with the store unchanged. -/
theorem c10_no_empty_summarizer_call (env : Env) (q t : String)
    (db : List Report) :
    (Agent.summarizerInput env q = some t →
      t ≠ "" ∧ Agent.summarize_with_gemini env t q = Agent.geminiBranch env t q)
    ∧ (App.summarizerInput env q = some t →
      t ≠ "" ∧ App.summarize_with_gemini env t q = App.geminiBranch env t q)
    ∧ (Agent.summarizerInput env q = none →
      Agent.run_agent env db q = ⟨db, none⟩)
    ∧ (App.summarizerInput env q = none →
      App.run_agent env db q = ⟨db, none⟩) := by
  refine ⟨?_, ?_, ?_, ?_⟩
  · intro h
    simp only [Agent.summarizerInput] at h
    by_cases hu : pipelineUrls env q = []
    · rw [if_pos hu] at h; cases h
    · rw [if_neg hu] at h
      by_cases hc : Agent.collectContent env (pipelineUrls env q) = ""
      · rw [if_pos hc] at h; cases h
      · rw [if_neg hc] at h
        injection h with h2
        subst h2
        exact ⟨hc, by simp [Agent.summarize_with_gemini, hc]⟩
  · intro h
    simp only [App.summarizerInput] at h
    by_cases hu : pipelineUrls env q = []
    · rw [if_pos hu] at h; cases h
    · rw [if_neg hu] at h
      by_cases hc : App.collectContent env (pipelineUrls env q) = ""
      · rw [if_pos hc] at h; cases h
      · rw [if_neg hc] at h
        injection h with h2
        subst h2
        exact ⟨hc, by simp [App.summarize_with_gemini, hc]⟩
  · intro h
    simp only [Agent.summarizerInput] at h
    simp only [Agent.run_agent]
    by_cases hu : pipelineUrls env q = []
    · rw [if_pos hu]
    · rw [if_neg hu] at h ⊢
      by_cases hc : Agent.collectContent env (pipelineUrls env q) = ""
      · rw [if_pos hc]
      · rw [if_neg hc] at h; cases h
  · intro h
    simp only [App.summarizerInput] at h
    simp only [App.run_agent]
    by_cases hu : pipelineUrls env q = []
    · rw [if_pos hu]
    · rw [if_neg hu] at h ⊢
      by_cases hc : App.collectContent env (pipelineUrls env q) = ""
      · rw [if_pos hc]
      · rw [if_neg hc] at h; cases h

/-- Witness for `c10_no_empty_summarizer_call` at `envHappy` (summarizer
reached with non-empty text) and `envSearchFail` (early return). -/
theorem c10_witness :
    Agent.summarizerInput envHappy "q" = some ("T" ++ "\n\n")
    ∧ ("T" ++ "\n\n" : String) ≠ ""
    ∧ Agent.summarize_with_gemini envHappy ("T" ++ "\n\n") "q"
        = Agent.geminiBranch envHappy ("T" ++ "\n\n") "q"
    ∧ App.summarizerInput envHappy "q" = some "T"
    ∧ ("T" : String) ≠ ""
    ∧ App.summarize_with_gemini envHappy "T" "q"
        = App.geminiBranch envHappy "T" "q"
    ∧ Agent.summarizerInput envSearchFail "q" = none
    ∧ Agent.run_agent envSearchFail [] "q" = ⟨[], none⟩
    ∧ App.run_agent envSearchFail [] "q" = ⟨[], none⟩ := by
  exact ⟨rfl, by decide,
    ((c10_no_empty_summarizer_call envHappy "q" ("T" ++ "\n\n") []).1 rfl).2,
    rfl, by decide,
    ((c10_no_empty_summarizer_call envHappy "q" "T" []).2.1 rfl).2,
    rfl,
    (c10_no_empty_summarizer_call envSearchFail "q" "" []).2.2.1 rfl,
    (c10_no_empty_summarizer_call envSearchFail "q" "" []).2.2.2 rfl⟩

end ResearchAgent
